import Mathlib

/-!
Shallow embedding of the hybrid retrieval-cache-rerank engine of
`hybrid_search.py` (classes `EmbeddingCache`, `ResultCache`,
`HybridSearchAPI`, `CustomReranker`) together with the `/search/filtered`
route of `api.py`, and theorems settling the specification claims.

Modelling conventions:
* Python floats are modelled as rationals; the one transcendental formula
  (`_calculate_similarity_score`, which calls `math.exp`) is modelled over
  the reals.
* Python strings are compared through their character lists; `str.lower`
  is modelled on the ASCII range, `str.strip` and `str.split` on the usual
  whitespace characters.
* Calls to external collaborators (the Appwrite document store, the FAISS
  index, the OpenAI embedding endpoint, the LangChain multi-query
  retriever) are fields of an `Oracles` record describing their outcome
  for the one query under consideration; a Python exception raised by a
  collaborator is `Except.error ()`, and every issued external call is
  recorded in an effect trace.
* `datetime.now()` is an explicit rational-valued parameter `now`,
  measured in hours; all clock reads during one request see the same time.
-/

/-- ASCII lower-casing of one character, modelling `str.lower`. -/
def lowerChar (c : Char) : Char :=
  if 65 ≤ c.toNat ∧ c.toNat ≤ 90 then Char.ofNat (c.toNat + 32) else c

/-- Character list of `query.lower()`. -/
def pyLower (s : String) : List Char := s.data.map lowerChar

/-- Whitespace test used by `str.strip` and `str.split`. -/
def isPySpace (c : Char) : Bool := c == ' ' || c == '\t' || c == '\n' || c == '\r'

/-- Modelling `str.strip`: drop leading and trailing whitespace. -/
def pyStrip (l : List Char) : List Char :=
  ((l.dropWhile isPySpace).reverse.dropWhile isPySpace).reverse

/-- Whether `needle` matches at the head of `hay`. -/
def matchesAt : List Char → List Char → Bool
  | [], _ => true
  | _ :: _, [] => false
  | a :: as, b :: bs => a == b && matchesAt as bs

/-- Python substring containment `needle in hay`. -/
def occursIn (needle : List Char) : List Char → Bool
  | [] => needle.isEmpty
  | b :: bs => matchesAt needle (b :: bs) || occursIn needle bs

/-- Helper of `pyWords`: accumulate the current (reversed) word while
scanning. -/
def splitWordsAux : List Char → List Char → List (List Char)
  | cur, [] => if cur.isEmpty then [] else [cur.reverse]
  | cur, c :: cs =>
    if isPySpace c then
      if cur.isEmpty then splitWordsAux [] cs else cur.reverse :: splitWordsAux [] cs
    else splitWordsAux (c :: cur) cs

/-- Modelling `str.split()` with no argument: split on whitespace runs,
dropping empty pieces. -/
def pyWords (l : List Char) : List (List Char) := splitWordsAux [] l

/-- The normalized cache key `query.lower().strip()` computed by
`EmbeddingCache.get`/`set` and `ResultCache.get`/`set`. -/
def normKey (q : String) : String := String.mk (pyStrip (pyLower q))

/-- One persisted cache entry: the stored value and the `timestamp` field
written next to it. -/
structure CacheEntry (α : Type) where
  value : α
  timestamp : ℚ
  deriving DecidableEq

/-- Common model of `EmbeddingCache` and `ResultCache` of hybrid_search.py:
the two classes duplicate the same normalized-key TTL logic verbatim and
differ only in the cached value type and in `duration_hours` (24 for
embeddings, 2 for result lists). The persisted JSON object is modelled as
an association list with unique keys. -/
structure TTLCache (α : Type) where
  entries : List (String × CacheEntry α)
  duration_hours : ℚ
  deriving DecidableEq

/-- Model of `EmbeddingCache.get` (hybrid_search.py 101-119) and
`ResultCache.get` (217-235): normalize the query, hit exactly when
`now - timestamp < duration_hours`, delete an expired entry and report it
as a miss. Returns the value, if any, together with the updated cache. -/
def TTLCache.get {α : Type} (c : TTLCache α) (query : String) (now : ℚ) :
    Option α × TTLCache α :=
  let k := normKey query
  match c.entries.find? (fun p => p.1 == k) with
  | some p =>
    if now - p.2.timestamp < c.duration_hours then (some p.2.value, c)
    else (none, { c with entries := c.entries.filter (fun e => !(e.1 == k)) })
  | none => (none, c)

/-- Model of `EmbeddingCache.set` (121-131) and `ResultCache.set`
(237-247): store the value under the normalized key with the current
timestamp, overwriting any previous entry for that key. -/
def TTLCache.set {α : Type} (c : TTLCache α) (query : String) (v : α) (now : ℚ) :
    TTLCache α :=
  let k := normKey query
  { c with entries := (k, ⟨v, now⟩) :: c.entries.filter (fun e => !(e.1 == k)) }

/-- One marketplace listing document as stored in Appwrite, with the
attributes the engine reads. -/
structure Listing where
  id : String
  title : String
  description : String
  price : ℚ
  location : String
  deriving DecidableEq

/-- One document returned by the FAISS vector store: its page content and
the `id` entry of its metadata (`doc.metadata.get('id')` may be absent). -/
structure Doc where
  page_content : String
  meta_id : Option String
  deriving DecidableEq

/-- One search-result dictionary as built by the engine. The two trailing
fields model the extra keys `original_score` and `rerank_position` that
only `CustomReranker.rerank` adds. -/
structure SearchResult where
  id : String
  title : String
  description : String
  price : ℚ
  location : String
  match_type : String
  score : ℚ
  original_score : Option ℚ
  rerank_position : Option Nat
  deriving DecidableEq

/-- Descending comparison on the `score` field, the key of every
`results.sort(key=lambda x: x['score'], reverse=True)` call. -/
def scoreGe (a b : SearchResult) : Prop := b.score ≤ a.score

instance : DecidableRel scoreGe :=
  fun a b => inferInstanceAs (Decidable (b.score ≤ a.score))

instance : IsTotal SearchResult scoreGe := ⟨fun a b => le_total b.score a.score⟩

instance : IsTrans SearchResult scoreGe := ⟨fun _ _ _ h1 h2 => le_trans h2 h1⟩

/-- Python `list.sort(key=lambda x: x['score'], reverse=True)`: a stable
sort placing higher scores first, modelled by stable insertion sort
(Python's timsort is likewise stable). -/
def sortByScoreDesc (l : List SearchResult) : List SearchResult :=
  List.insertionSort scoreGe l

/-- The price-sensitivity phrases tested by
`CustomReranker._calculate_rerank_score`. -/
def priceIntentWords : List (List Char) :=
  ["pas cher", "bon prix", "économique", "abordable"].map String.data

/-- The city names tested by `CustomReranker._calculate_rerank_score`. -/
def cityWords : List (List Char) :=
  ["paris", "lyon", "marseille", "toulouse"].map String.data

/-- Model of `CustomReranker._calculate_rerank_score` (hybrid_search.py
986-1034). The per-word loop adding 0.1 for each query word contained in
title or description is written as 0.1 times the count of such words. -/
def calculate_rerank_score (query : String) (r : SearchResult) (position : Nat) : ℚ :=
  let base_score := r.score
  let title := pyLower r.title
  let description := pyLower r.description
  let price := r.price
  let location := pyLower r.location
  let query_lower := pyLower query
  let query_words := pyWords query_lower
  let exact_match_bonus : ℚ :=
    0.1 * ((query_words.filter
      (fun w => occursIn w title || occursIn w description)).length : ℚ)
  let semantic_bonus : ℚ :=
    (if query_words.any (fun w => occursIn w title) then 0.2 else 0) +
    (if query_words.any (fun w => occursIn w description) then 0.1 else 0)
  let price_bonus : ℚ :=
    if priceIntentWords.any (fun w => occursIn w query_lower) then
      (if price < 10000 then 0.3 else if price < 20000 then 0.1 else 0)
    else 0
  let location_bonus : ℚ :=
    if cityWords.any (fun w => occursIn w query_lower) then
      (if cityWords.any (fun c => occursIn c location) then 0.2 else 0)
    else 0
  let position_penalty : ℚ := (position : ℚ) * 0.02
  let final_score := base_score + exact_match_bonus + semantic_bonus +
    price_bonus + location_bonus - position_penalty
  max 0.5 (min 1 final_score)

/-- One iteration of the rescoring loop of `CustomReranker.rerank`
(lines 965-975): the adjusted copy of `r` at 0-based `position`. -/
def rerank_one (query : String) (position : Nat) (r : SearchResult) : SearchResult :=
  { r with
    original_score := some r.score
    score := calculate_rerank_score query r position
    match_type := r.match_type ++ "_reranked"
    rerank_position := some (position + 1) }

/-- The full rescored list built by the loop of `CustomReranker.rerank`
before sorting and truncation. -/
def rerank_all (query : String) (results : List SearchResult) : List SearchResult :=
  results.enum.map (fun p => rerank_one query p.1 p.2)

/-- Model of `CustomReranker.rerank` (hybrid_search.py 956-984): rescore
every result, sort by the new score descending, truncate to
`max_results`. -/
def rerank (query : String) (results : List SearchResult) (max_results : Nat) :
    List SearchResult :=
  if results.isEmpty then results
  else (sortByScoreDesc (rerank_all query results)).take max_results

/-- The external calls the engine can issue while serving one query. -/
inductive Effect where
  | docList (offset : Nat)
  | docGet (id : String)
  | annQuery
  | embedCall
  | llmMultiQuery
  deriving DecidableEq

/-- Outcomes of the external collaborators for the one query under
consideration. `Except.error ()` is a raised Python exception. -/
structure Oracles where
  doc_store : Except Unit (List Listing)
  ann_search : Except Unit (List Doc)
  multi_query : Except Unit (List Doc)
  embed : Except Unit (List ℚ)
  ann_by_vector : List ℚ → Except Unit (List Doc)
  get_document : String → Option Listing

/-- The mutable state of one `HybridSearchAPI` instance that the modelled
operations read and write. `reranker_enabled` is whether
`self.reranker` is set. -/
structure SearchState where
  embedding_cache : TTLCache (List ℚ)
  result_cache : TTLCache (List SearchResult)
  reranker_enabled : Bool

/-- Model of `_get_announcement_details` (hybrid_search.py 797-811):
`None` when the id is falsy, otherwise one `get_document` call whose
failure is caught and reported as `None`. Returns the listing, if any,
and the issued effects. -/
def get_announcement_details (o : Oracles) (announcement_id : Option String) :
    Option Listing × List Effect :=
  match announcement_id with
  | none => (none, [])
  | some i => if i = "" then (none, []) else (o.get_document i, [Effect.docGet i])

/-- The result loop of `text_search` (hybrid_search.py 372-387): keep the
documents whose lowered page content contains the lowered query, resolve
their details, and emit entries with `match_type` `'text'` and score 1. -/
def text_match (o : Oracles) (ql : List Char) : List Doc → List SearchResult × List Effect
  | [] => ([], [])
  | d :: ds =>
    let rest := text_match o ql ds
    if occursIn ql (pyLower d.page_content) then
      let det := get_announcement_details o d.meta_id
      match d.meta_id, det.1 with
      | some i, some a =>
        (⟨i, a.title, a.description, a.price, a.location, "text", 1, none, none⟩ :: rest.1,
         det.2 ++ rest.2)
      | _, _ => (rest.1, det.2 ++ rest.2)
    else rest

/-- Model of `text_search` (hybrid_search.py 359-391): one FAISS
`similarity_search(query, k=20)` call, then the substring loop; any
exception from the vector store leaves the result list empty. The
`announcements` parameter of the Python method is never read there and is
omitted. -/
def text_search (o : Oracles) (query : String) : List SearchResult × List Effect :=
  match o.ann_search with
  | .error _ => ([], [Effect.annQuery])
  | .ok docs =>
    let r := text_match o (pyLower query) docs
    (r.1, Effect.annQuery :: r.2)

/-- Shared shape of the result-formatting loops of `semantic_search`
(decay 0.05, match type `'semantic_multi_query'`, lines 430-446) and of
`_semantic_search_fallback` (decay 0.1, `'semantic_fallback'`, lines
497-513): positional score `max (1 - i * decay) min_score`, threshold
check, details lookup. -/
def format_positional (o : Oracles) (min_score decay : ℚ) (mt : String) :
    Nat → List Doc → List SearchResult × List Effect
  | _, [] => ([], [])
  | i, d :: ds =>
    let score := max (1 - (i : ℚ) * decay) min_score
    if min_score ≤ score then
      let det := get_announcement_details o d.meta_id
      let rest := format_positional o min_score decay mt (i + 1) ds
      match d.meta_id, det.1 with
      | some did, some a =>
        (⟨did, a.title, a.description, a.price, a.location, mt, score, none, none⟩ :: rest.1,
         det.2 ++ rest.2)
      | _, _ => (rest.1, det.2 ++ rest.2)
    else format_positional o min_score decay mt (i + 1) ds

/-- The `seen_ids` deduplication of multi-query documents
(hybrid_search.py 418-424): keep a document only when its metadata id is
truthy and not seen before. -/
def dedup_docs (seen : List String) : List Doc → List Doc
  | [] => []
  | d :: ds =>
    match d.meta_id with
    | some i => if i ≠ "" ∧ i ∉ seen then d :: dedup_docs (i :: seen) ds else dedup_docs seen ds
    | none => dedup_docs seen ds

/-- Model of `_apply_reranking` (hybrid_search.py 931-948) in the states
where it is called with the reranker available; `CustomReranker.rerank`
is a pure function in the model, so the exception branch returning
`results[:max_results]` cannot arise. -/
def apply_reranking (query : String) (results : List SearchResult) (max_results : Nat) :
    List SearchResult :=
  if results.isEmpty then results else rerank query results max_results

/-- Model of `_semantic_search_fallback` (hybrid_search.py 475-516). The
method has no internal exception handler, so a collaborator failure is
propagated to `semantic_search` as `Except.error`, carrying the state and
effects accumulated up to the raise. A cached empty embedding is falsy in
Python and treated as a miss. -/
def semantic_search_fallback (o : Oracles) (st : SearchState) (now : ℚ)
    (query : String) (min_score : ℚ) :
    Except (SearchState × List Effect) (List SearchResult × SearchState × List Effect) :=
  let g := st.embedding_cache.get query now
  let st1 := { st with embedding_cache := g.2 }
  let hit := match g.1 with
    | some emb => if emb.isEmpty then none else some emb
    | none => none
  match hit with
  | some emb =>
    match o.ann_by_vector emb with
    | .error _ => .error (st1, [Effect.annQuery])
    | .ok docs =>
      let f := format_positional o min_score 0.1 "semantic_fallback" 0 docs
      .ok (sortByScoreDesc f.1, st1, Effect.annQuery :: f.2)
  | none =>
    match o.embed with
    | .error _ => .error (st1, [Effect.embedCall])
    | .ok emb =>
      let st2 := { st1 with embedding_cache := st1.embedding_cache.set query emb now }
      match o.ann_by_vector emb with
      | .error _ => .error (st2, [Effect.embedCall, Effect.annQuery])
      | .ok docs =>
        let f := format_positional o min_score 0.1 "semantic_fallback" 0 docs
        .ok (sortByScoreDesc f.1, st2, Effect.embedCall :: Effect.annQuery :: f.2)

/-- The part of `semantic_search` after the result-cache check
(hybrid_search.py 410-473): the multi-query retrieval with deduplication,
positional scoring, sorting, optional reranking (at most 15 kept) and
caching of the final list; on a multi-query failure the classic fallback
runs, and a failure inside the fallback is caught by the outer handler of
`semantic_search`, which returns the empty list. -/
def semantic_search_core (o : Oracles) (st : SearchState) (now : ℚ)
    (query : String) (min_score : ℚ) :
    List SearchResult × SearchState × List Effect :=
  match o.multi_query with
  | .ok docs =>
    let uniq := dedup_docs [] docs
    let f := format_positional o min_score 0.05 "semantic_multi_query" 0 uniq
    let sorted := sortByScoreDesc f.1
    let final := if st.reranker_enabled && !sorted.isEmpty then
        apply_reranking query sorted 15
      else sorted
    let st2 := { st with result_cache := st.result_cache.set query final now }
    (final, st2, Effect.llmMultiQuery :: f.2)
  | .error _ =>
    match semantic_search_fallback o st now query min_score with
    | .ok r => (r.1, r.2.1, Effect.llmMultiQuery :: r.2.2)
    | .error r => ([], r.1, Effect.llmMultiQuery :: r.2)

/-- Model of `semantic_search` (hybrid_search.py 393-473): the result
cache is read first; a cached empty list is falsy in Python and treated
as a miss; a nonempty unexpired cached list is returned with no further
work. -/
def semantic_search (o : Oracles) (st : SearchState) (now : ℚ)
    (query : String) (min_score : ℚ) :
    List SearchResult × SearchState × List Effect :=
  let g := st.result_cache.get query now
  let st1 := { st with result_cache := g.2 }
  match g.1 with
  | some rs =>
    if rs.isEmpty then semantic_search_core o st1 now query min_score
    else (rs, st1, [])
  | none => semantic_search_core o st1 now query min_score

/-- The Appwrite pagination loop of `hybrid_search` (hybrid_search.py
820-852, page size 25), run over the store contents, recording one
`docList` effect per page request. -/
def fetch_pages (rest : List Listing) (offset : Nat) : List Listing × List Effect :=
  if (rest.take 25).length = 0 then ([], [Effect.docList offset])
  else if (rest.take 25).length < 25 then (rest.take 25, [Effect.docList offset])
  else
    let r := fetch_pages (rest.drop 25) (offset + 25)
    (rest.take 25 ++ r.1, Effect.docList offset :: r.2)
termination_by rest.length
decreasing_by
  have hp := List.length_take 25 rest
  simp only [List.length_drop]
  omega

/-- The announcement-retrieval step of `hybrid_search`: a document-store
failure (modelled as failing on the first page request) is reported to
the caller, which converts it into the error dictionary. -/
def fetch_all (o : Oracles) : Except Unit (List Listing) × List Effect :=
  match o.doc_store with
  | .error e => (.error e, [Effect.docList 0])
  | .ok store =>
    let r := fetch_pages store 0
    (.ok r.1, r.2)

/-- The two fusion loops of `hybrid_search` (lines 869-884): text results
are inserted first, then semantic results, with one shared `seen_ids`
set — first-occurrence deduplication by id over the concatenation. -/
def dedup_by_id (seen : List String) : List SearchResult → List SearchResult
  | [] => []
  | r :: t =>
    if r.id ∈ seen then dedup_by_id seen t else r :: dedup_by_id (r.id :: seen) t

/-- The successful response dictionary of `hybrid_search`
(lines 892-898). -/
structure SearchResponse where
  query : String
  total_results : Nat
  text_results : Nat
  semantic_results : Nat
  results : List SearchResult
  deriving DecidableEq

/-- Outcome of `hybrid_search`: either the error dictionary or a
response. -/
inductive HSOut where
  | err (msg : String)
  | ok (resp : SearchResponse)
  deriving DecidableEq

/-- Model of `hybrid_search` (hybrid_search.py 813-898): fetch all
announcements (error dictionary on failure), run the text search, run the
semantic search with `min_score = 0.7`, fuse with text priority,
deduplicate, sort by score descending, truncate to `limit`. Returns the
outcome, the final state and the effect trace. -/
def hybrid_search (o : Oracles) (st : SearchState) (now : ℚ)
    (query : String) (limit : Nat) :
    HSOut × SearchState × List Effect :=
  match fetch_all o with
  | (.error _, eff) => (.err "Impossible de récupérer les annonces", st, eff)
  | (.ok _anns, eff1) =>
    let t := text_search o query
    let s := semantic_search o st now query 0.7
    let combined := dedup_by_id [] (t.1 ++ s.1)
    let final := (sortByScoreDesc combined).take limit
    (.ok ⟨query, final.length, t.1.length, s.1.length, final⟩, s.2.1, eff1 ++ t.2 ++ s.2.2)

/-- Model of `_calculate_similarity_score` (hybrid_search.py 900-929)
over the reals. Calling it with `max_position = 0` raises
`ZeroDivisionError` in Python, caught by the handler that returns the
positional fallback `max 0.5 (1 - position * 0.05)`; every other input
takes the main branch. -/
noncomputable def calculate_similarity_score (distance : ℝ) (position : Nat)
    (max_position : Nat) : ℝ :=
  if max_position = 0 then max 0.5 (1 - (position : ℝ) * 0.05)
  else
    let normalized_distance := max 0 (min 1 distance)
    let distance_score := 1 - normalized_distance
    let position_weight := 1 - ((position : ℝ) / (max_position : ℝ)) * 0.3
    let hybrid_score := distance_score * 0.7 + position_weight * 0.3
    let normalized_score := 1 / (1 + Real.exp (-5 * (hybrid_score - 0.5)))
    0.5 + normalized_score * 0.5

/-- The method names defined on the class `HybridSearchAPI` in
hybrid_search.py, in source order. -/
def hybridSearchAPIMethods : List String :=
  ["__init__", "_load_components", "text_search", "semantic_search",
   "_semantic_search_fallback", "semantic_search_advanced",
   "_semantic_search_advanced_fallback", "semantic_search_with_real_scores",
   "search_with_filters", "_get_announcement_details", "hybrid_search",
   "_calculate_similarity_score", "_apply_reranking"]

/-- The attribute name that the `/search/filtered` route handler
`search_announcements_filtered` of api.py (line 434) invokes on the
search API object. -/
def filtered_route_attr : String := "search_with_price_filter"

/-- Possible outcomes of one call to the `/search/filtered` route. -/
inductive RouteOutcome where
  | badRequest
  | httpError (code : Nat)
  | ok
  deriving DecidableEq

/-- Model of `search_announcements_filtered` (api.py 416-469): an empty
stripped query gives HTTP 400; otherwise the handler invokes the
attribute `search_with_price_filter` on the `HybridSearchAPI` object —
modelled as a lookup in the class method table — and its generic
exception handler converts the resulting `AttributeError` into
HTTP 500. -/
def search_announcements_filtered (query : String) : RouteOutcome :=
  if (pyStrip query.data).isEmpty then .badRequest
  else if hybridSearchAPIMethods.contains filtered_route_attr then .ok
  else .httpError 500

/-- Concrete listing used by the evaluation theorems. -/
def exListing1 : Listing :=
  ⟨"L1", "Villa de luxe", "Belle villa avec piscine", 250000, "Nice"⟩

/-- Second concrete listing used by the evaluation theorems. -/
def exListing2 : Listing :=
  ⟨"L2", "Appartement centre", "Proche mer", 120000, "Nice"⟩

/-- Indexed document for `exListing1`. -/
def exDoc1 : Doc := ⟨"villa de luxe belle villa avec piscine", some "L1"⟩

/-- Indexed document for `exListing2`. -/
def exDoc2 : Doc := ⟨"appartement centre proche mer", some "L2"⟩

/-- Concrete document-store lookup for the two example listings. -/
def exGetDocument (i : String) : Option Listing :=
  if i = "L1" then some exListing1 else if i = "L2" then some exListing2 else none

/-- Healthy collaborators: the text index finds `exDoc1`, the multi-query
retriever finds both documents, the plain embedding path is unused. -/
def exOracles : Oracles :=
  { doc_store := .ok [exListing1, exListing2]
    ann_search := .ok [exDoc1]
    multi_query := .ok [exDoc1, exDoc2]
    embed := .error ()
    ann_by_vector := fun _ => .error ()
    get_document := exGetDocument }

/-- Fresh state: empty caches with the durations of `EmbeddingCache`
(24 h) and `ResultCache` (2 h), reranker absent. -/
def exState : SearchState := ⟨⟨[], 24⟩, ⟨[], 2⟩, false⟩

/-- A semantic result list pretending to have been cached earlier. -/
def exCachedResult : SearchResult :=
  ⟨"L9", "Villa en cache", "Cache de resultats", 100, "Nice",
   "semantic_multi_query", 0.9, none, none⟩

/-- State whose result cache holds an unexpired entry for the normalized
key of the query string `villa`, written at time 0 with TTL 2 h. -/
def exStateCached : SearchState :=
  ⟨⟨[], 24⟩, ⟨[("villa", ⟨[exCachedResult], 0⟩)], 2⟩, false⟩

/-- Collaborators where only the document store fails while the semantic
path is fully healthy. -/
def exOraclesFetchFail : Oracles :=
  { doc_store := .error ()
    ann_search := .ok [exDoc1]
    multi_query := .ok [exDoc1, exDoc2]
    embed := .error ()
    ann_by_vector := fun _ => .error ()
    get_document := exGetDocument }

/-- Collaborators where the LLM-backed multi-query retriever raises while
the single-query embedding path is healthy. -/
def exOraclesExpansionFail : Oracles :=
  { doc_store := .ok [exListing1, exListing2]
    ann_search := .ok [exDoc1]
    multi_query := .error ()
    embed := .ok [1, 0, 0]
    ann_by_vector := fun _ => .ok [exDoc1]
    get_document := exGetDocument }

/-- The text entry that the example oracles produce for the query
`villa`. -/
def exTextResult : SearchResult :=
  ⟨"L1", "Villa de luxe", "Belle villa avec piscine", 250000, "Nice", "text", 1, none, none⟩

/-- The first semantic entry of the example multi-query retrieval. -/
def exSem1 : SearchResult :=
  ⟨"L1", "Villa de luxe", "Belle villa avec piscine", 250000, "Nice",
   "semantic_multi_query", 1, none, none⟩

/-- The second semantic entry of the example multi-query retrieval. -/
def exSem2 : SearchResult :=
  ⟨"L2", "Appartement centre", "Proche mer", 120000, "Nice",
   "semantic_multi_query", 0.95, none, none⟩

/-- The fallback entry produced for `exDoc1` when query expansion
fails. -/
def exFallbackResult : SearchResult :=
  ⟨"L1", "Villa de luxe", "Belle villa avec piscine", 250000, "Nice",
   "semantic_fallback", 1, none, none⟩

/-- Entries surviving the deletion filter for key `k` can never be found
under `k` again. -/
theorem find?_filter_ne {α : Type} (l : List (String × CacheEntry α)) (k : String) :
    (l.filter (fun e => !(e.1 == k))).find? (fun p => p.1 == k) = none := by
  rw [List.find?_eq_none]
  intro x hx
  have h := (List.mem_filter.mp hx).2
  simp at h
  simp [h]

/-- C8: a cache entry written at time `tW` under TTL `duration_hours` is
returned by a lookup at any time strictly before `tW + duration_hours`,
while a lookup at or after that instant is a miss and removes the entry.
This covers both cache instances, since `EmbeddingCache` and
`ResultCache` share this logic (modelled once as `TTLCache`). -/
theorem cache_ttl_hit_and_miss {α : Type} (c : TTLCache α) (query : String)
    (v : α) (tW now : ℚ) :
    (now < tW + c.duration_hours → ((c.set query v tW).get query now).1 = some v) ∧
    (tW + c.duration_hours ≤ now →
      ((c.set query v tW).get query now).1 = none ∧
      ((c.set query v tW).get query now).2.entries.find?
        (fun p => p.1 == normKey query) = none) := by
  constructor
  · intro h
    have h2 : now - tW < c.duration_hours := by linarith
    simp [TTLCache.get, TTLCache.set, h2]
  · intro h
    have h2 : ¬(now - tW < c.duration_hours) := by push_neg; linarith
    refine ⟨by simp [TTLCache.get, TTLCache.set, h2], ?_⟩
    simp [TTLCache.get, TTLCache.set, h2, find?_filter_ne]

/-- Witness for `cache_ttl_hit_and_miss` at the concrete durations of the
two cache instances: a hit after one hour in the 24-hour embedding cache,
and a miss after two hours in the two-hour result cache. -/
theorem cache_ttl_hit_and_miss_witness :
    ((TTLCache.set ⟨[], 24⟩ "Villa" (7 : ℕ) 0).get "Villa" 1).1 = some 7 ∧
    ((TTLCache.set ⟨[], 2⟩ " villa" ([] : List SearchResult) 0).get " villa" 2).1 = none :=
  ⟨(cache_ttl_hit_and_miss ⟨[], 24⟩ "Villa" 7 0 1).1 (by norm_num),
   ((cache_ttl_hit_and_miss ⟨[], 2⟩ " villa" [] 0 2).2 (by norm_num)).1⟩

/-- The deduplicated list is a sublist of its input. -/
theorem dedup_by_id_sublist (seen : List String) (rs : List SearchResult) :
    (dedup_by_id seen rs).Sublist rs := by
  induction rs generalizing seen with
  | nil => simp [dedup_by_id]
  | cons a t ih =>
    by_cases hc : a.id ∈ seen
    · simp only [dedup_by_id, if_pos hc]
      exact (ih seen).cons a
    · simp only [dedup_by_id, if_neg hc]
      exact (ih (a.id :: seen)).cons₂ a

/-- Every deduplicated entry has an id outside the seen set. -/
theorem dedup_by_id_not_seen {seen : List String} {rs : List SearchResult}
    {r : SearchResult} (h : r ∈ dedup_by_id seen rs) : r.id ∉ seen := by
  induction rs generalizing seen with
  | nil => simp [dedup_by_id] at h
  | cons a t ih =>
    by_cases hc : a.id ∈ seen
    · rw [dedup_by_id, if_pos hc] at h
      exact ih h
    · rw [dedup_by_id, if_neg hc] at h
      rcases List.mem_cons.mp h with h1 | h1
      · subst h1; exact hc
      · intro hmem
        exact (ih h1) (List.mem_cons_of_mem _ hmem)

/-- Deduplication by id yields pairwise-distinct ids. -/
theorem dedup_by_id_nodup (seen : List String) (rs : List SearchResult) :
    ((dedup_by_id seen rs).map SearchResult.id).Nodup := by
  induction rs generalizing seen with
  | nil => simp [dedup_by_id]
  | cons a t ih =>
    by_cases hc : a.id ∈ seen
    · simpa [dedup_by_id, hc] using ih seen
    · simp only [dedup_by_id, if_neg hc, List.map_cons, List.nodup_cons]
      refine ⟨?_, ih (a.id :: seen)⟩
      intro hmem
      rcases List.mem_map.mp hmem with ⟨s, hs, hsid⟩
      apply dedup_by_id_not_seen hs
      rw [hsid]
      exact List.mem_cons_self _ _

/-- If an id occurs among the ids of the first fused list, the
deduplicated entry carrying that id comes from the first list. -/
theorem dedup_append_mem_left {l1 l2 : List SearchResult} {seen : List String}
    {r : SearchResult} (h : r ∈ dedup_by_id seen (l1 ++ l2))
    (hid : r.id ∈ l1.map SearchResult.id) : r ∈ l1 := by
  induction l1 generalizing seen with
  | nil => simp at hid
  | cons a t ih =>
    rw [List.cons_append] at h
    rw [List.map_cons] at hid
    by_cases hc : a.id ∈ seen
    · rw [dedup_by_id, if_pos hc] at h
      have hne : r.id ≠ a.id := by
        intro he
        exact (dedup_by_id_not_seen h) (he ▸ hc)
      rcases List.mem_cons.mp hid with h1 | h1
      · exact absurd h1 hne
      · exact List.mem_cons_of_mem _ (ih h h1)
    · rw [dedup_by_id, if_neg hc] at h
      rcases List.mem_cons.mp h with h1 | h1
      · exact h1 ▸ List.mem_cons_self _ _
      · have hne : r.id ≠ a.id := by
          intro he
          exact (dedup_by_id_not_seen h1) (by rw [he]; exact List.mem_cons_self _ _)
        rcases List.mem_cons.mp hid with h2 | h2
        · exact absurd h2 hne
        · exact List.mem_cons_of_mem _ (ih h1 h2)

/-- Every entry returned by the text-search result loop carries match
type `text` and score 1. -/
theorem text_match_entries (o : Oracles) (ql : List Char) (docs : List Doc) :
    ∀ r ∈ (text_match o ql docs).1, r.match_type = "text" ∧ r.score = 1 := by
  induction docs with
  | nil => simp [text_match]
  | cons d ds ih =>
    intro r hr
    simp only [text_match] at hr
    by_cases hocc : occursIn ql (pyLower d.page_content)
    · rw [if_pos hocc] at hr
      rcases hmi : d.meta_id with _ | i
      · rw [hmi] at hr
        exact ih r hr
      · rw [hmi] at hr
        rcases hga : (get_announcement_details o (some i)).1 with _ | a
        · rw [hga] at hr
          exact ih r hr
        · rw [hga] at hr
          rcases List.mem_cons.mp hr with h1 | h1
          · subst h1; exact ⟨rfl, rfl⟩
          · exact ih r h1
    · rw [if_neg hocc] at hr
      exact ih r hr

/-- Adjusted scores produced by the rerank loop are clamped to the band
`[0.5, 1]`. -/
theorem rerank_all_score_bounds (query : String) (results : List SearchResult) :
    ∀ r ∈ rerank_all query results, (0.5 : ℚ) ≤ r.score ∧ r.score ≤ 1 := by
  intro r hr
  rcases List.mem_map.mp hr with ⟨p, _, hp⟩
  subst hp
  simp only [rerank_one, calculate_rerank_score]
  exact ⟨le_max_left _ _, max_le (by norm_num) (min_le_left _ _)⟩

/-- C9: `CustomReranker.rerank` only rescales and reorders: its output is
a prefix of a sorted permutation of the adjusted input entries, it is a
permutation of all adjusted entries whenever the input fits inside
`max_results`, every output entry is an adjusted input entry, and every
adjusted score lies in `[0.5, 1]`. -/
theorem rerank_frame (query : String) (results : List SearchResult) (max_results : Nat) :
    (∃ l, (rerank_all query results).Perm l ∧ l.Sorted scoreGe ∧
        rerank query results max_results = l.take max_results) ∧
    (results.length ≤ max_results →
        (rerank query results max_results).Perm (rerank_all query results)) ∧
    (∀ r ∈ rerank query results max_results, r ∈ rerank_all query results) ∧
    (∀ r ∈ rerank query results max_results, (0.5 : ℚ) ≤ r.score ∧ r.score ≤ 1) := by
  have hperm : (sortByScoreDesc (rerank_all query results)).Perm (rerank_all query results) :=
    List.perm_insertionSort scoreGe _
  have hsorted : (sortByScoreDesc (rerank_all query results)).Sorted scoreGe :=
    List.sorted_insertionSort scoreGe _
  have hre : rerank query results max_results =
      (sortByScoreDesc (rerank_all query results)).take max_results := by
    by_cases hre0 : results.isEmpty
    · have he : results = [] := by
        cases results with
        | nil => rfl
        | cons a t => simp at hre0
      subst he
      simp [rerank, rerank_all, sortByScoreDesc, List.insertionSort]
    · simp [rerank, hre0]
  have hmem : ∀ r ∈ rerank query results max_results, r ∈ rerank_all query results := by
    intro r hr
    rw [hre] at hr
    exact hperm.mem_iff.mp ((List.take_sublist _ _).subset hr)
  refine ⟨⟨sortByScoreDesc (rerank_all query results), hperm.symm, hsorted, hre⟩, ?_, hmem, ?_⟩
  · intro hlen
    have hlen2 : (sortByScoreDesc (rerank_all query results)).length ≤ max_results := by
      rw [hperm.length_eq]
      simpa [rerank_all] using hlen
    rw [hre, List.take_of_length_le hlen2]
    exact hperm
  · intro r hr
    exact rerank_all_score_bounds query results r (hmem r hr)

/-- Witness for `rerank_frame`: with one input result and limit 5 the
reranked output is a permutation of the adjusted input. -/
theorem rerank_frame_witness :
    (rerank "villa"
        [⟨"L1", "Villa", "Belle villa", 100, "Nice", "semantic_multi_query", 0.9, none, none⟩]
        5).Perm
      (rerank_all "villa"
        [⟨"L1", "Villa", "Belle villa", 100, "Nice", "semantic_multi_query", 0.9, none, none⟩]) :=
  (rerank_frame "villa"
    [⟨"L1", "Villa", "Belle villa", 100, "Nice", "semantic_multi_query", 0.9, none, none⟩]
    5).2.1 (by norm_num)

/-- C5: the core never defines a method called
`search_with_price_filter` — its price-filtered operation is named
`search_with_filters` — so the `/search/filtered` route of api.py, which
invokes exactly that attribute on every nonempty query, always ends in
the generic handler with HTTP 500. -/
theorem search_with_price_filter_missing :
    search_announcements_filtered "téléphone" = RouteOutcome.httpError 500 ∧
    hybridSearchAPIMethods.contains "search_with_price_filter" = false ∧
    hybridSearchAPIMethods.contains "search_with_filters" = true := by
  refine ⟨by decide, by decide, by decide⟩

/-- Any real logistic value lies strictly inside the unit interval. -/
theorem sigmoid_bounds (x : ℝ) : 0 < 1 / (1 + Real.exp x) ∧ 1 / (1 + Real.exp x) < 1 := by
  have h1 : (0 : ℝ) < 1 + Real.exp x := by positivity
  constructor
  · positivity
  · rw [div_lt_one h1]
    have := Real.exp_pos x
    linarith

/-- The logistic rescaling step of the score model is monotone in the
blended score. -/
theorem sigmoid_mono {x y : ℝ} (h : x ≤ y) :
    1 / (1 + Real.exp (-5 * (x - 0.5))) ≤ 1 / (1 + Real.exp (-5 * (y - 0.5))) := by
  apply one_div_le_one_div_of_le
  · positivity
  · have h2 : -5 * (y - 0.5) ≤ -5 * (x - 0.5) := by linarith
    have h3 := Real.exp_le_exp.mpr h2
    linarith

/-- The final rescaling step of the score model stays inside the
`[0.5, 1]` band for any blended score. -/
theorem band_shape (h : ℝ) :
    (0.5 : ℝ) ≤ 0.5 + 1 / (1 + Real.exp (-5 * (h - 0.5))) * 0.5 ∧
    0.5 + 1 / (1 + Real.exp (-5 * (h - 0.5))) * 0.5 ≤ 1 := by
  have hs := sigmoid_bounds (-5 * (h - 0.5))
  constructor
  · linarith [hs.1]
  · linarith [hs.2]

/-- The final rescaling step of the score model is monotone in the
blended score. -/
theorem band_shape_mono {h1 h2 : ℝ} (h : h1 ≤ h2) :
    0.5 + 1 / (1 + Real.exp (-5 * (h1 - 0.5))) * 0.5 ≤
    0.5 + 1 / (1 + Real.exp (-5 * (h2 - 0.5))) * 0.5 := by
  have := sigmoid_mono h
  linarith

/-- C3: for every distance `d ≥ 0` and every rank strictly below
`max_position`, the score produced by `_calculate_similarity_score` lies
in the band `[0.5, 1]`, and the input distance 0 at rank 0 attains the
maximum of the model at that `max_position`. -/
theorem similarity_score_bounds (distance : ℝ) (position max_position : Nat)
    (_hd : 0 ≤ distance) (hpos : position < max_position) :
    ((0.5 : ℝ) ≤ calculate_similarity_score distance position max_position ∧
      calculate_similarity_score distance position max_position ≤ 1) ∧
    calculate_similarity_score distance position max_position ≤
      calculate_similarity_score 0 0 max_position := by
  have hm0 : max_position ≠ 0 := by omega
  simp only [calculate_similarity_score, if_neg hm0, Nat.cast_zero]
  refine ⟨band_shape _, ?_⟩
  apply band_shape_mono
  have h1 : (0 : ℝ) ≤ max 0 (min 1 distance) := le_max_left _ _
  have h2 : (0 : ℝ) ≤ ((position : ℝ) / (max_position : ℝ)) * 0.3 := by positivity
  have hmin : min (1 : ℝ) 0 = 0 := min_eq_right (by norm_num)
  have hmax : max (0 : ℝ) 0 = 0 := max_self 0
  rw [hmin, hmax, zero_div]
  norm_num
  linarith [h1, h2]

/-- Witness for `similarity_score_bounds` at distance 0, rank 0 and
`max_position = 20`. -/
theorem similarity_score_bounds_witness :
    (((0.5 : ℝ) ≤ calculate_similarity_score 0 0 20 ∧
      calculate_similarity_score 0 0 20 ≤ 1) ∧
     calculate_similarity_score 0 0 20 ≤ calculate_similarity_score 0 0 20) :=
  similarity_score_bounds 0 0 20 le_rfl (by norm_num)

/-- The fused, sorted, truncated result list of `hybrid_search` has
pairwise-distinct ids. -/
theorem fuse_nodup (t s : List SearchResult) (limit : Nat) :
    (((sortByScoreDesc (dedup_by_id [] (t ++ s))).take limit).map SearchResult.id).Nodup := by
  have h1 := dedup_by_id_nodup [] (t ++ s)
  have h2 : ((sortByScoreDesc (dedup_by_id [] (t ++ s))).map SearchResult.id).Nodup :=
    ((List.perm_insertionSort scoreGe (dedup_by_id [] (t ++ s))).map
      SearchResult.id).nodup_iff.mpr h1
  rw [List.map_take]
  exact (List.take_sublist _ _).nodup h2

/-- The fused, sorted, truncated result list of `hybrid_search` respects
the requested limit. -/
theorem fuse_length_le (t s : List SearchResult) (limit : Nat) :
    ((sortByScoreDesc (dedup_by_id [] (t ++ s))).take limit).length ≤ limit :=
  List.length_take_le _ _

/-- The fused, sorted, truncated result list of `hybrid_search` has
non-increasing scores. -/
theorem fuse_sorted (t s : List SearchResult) (limit : Nat) :
    ((sortByScoreDesc (dedup_by_id [] (t ++ s))).take limit).Sorted scoreGe :=
  (List.sorted_insertionSort scoreGe (dedup_by_id [] (t ++ s))).sublist
    (List.take_sublist _ _)

/-- C1: every successful `hybrid_search` response carries
pairwise-distinct result ids, at most `limit` results, and scores that
are non-increasing from first to last. -/
theorem hybrid_search_invariants (o : Oracles) (st : SearchState) (now : ℚ)
    (query : String) (limit : Nat) (resp : SearchResponse)
    (_hlim : 0 < limit)
    (h : (hybrid_search o st now query limit).1 = HSOut.ok resp) :
    (resp.results.map SearchResult.id).Nodup ∧
    resp.results.length ≤ limit ∧
    resp.results.Sorted scoreGe := by
  rcases hds : o.doc_store with e | store
  · simp [hybrid_search, fetch_all, hds] at h
  · simp only [hybrid_search, fetch_all, hds] at h
    rw [HSOut.ok.injEq] at h
    subst h
    exact ⟨fuse_nodup _ _ _, fuse_length_le _ _ _, fuse_sorted _ _ _⟩

/-- C2: when an id is produced by both the lexical and the semantic path,
any entry carrying that id in a successful `hybrid_search` response is
the lexical one: `match_type` is the lexical tag `text` and the score is
exactly 1, whatever the semantic score was. -/
theorem hybrid_search_text_priority (o : Oracles) (st : SearchState) (now : ℚ)
    (query : String) (limit : Nat) (resp : SearchResponse) (i : String)
    (r : SearchResult)
    (hit : i ∈ (text_search o query).1.map SearchResult.id)
    (_his : i ∈ (semantic_search o st now query 0.7).1.map SearchResult.id)
    (h : (hybrid_search o st now query limit).1 = HSOut.ok resp)
    (hr : r ∈ resp.results) (hri : r.id = i) :
    r.match_type = "text" ∧ r.score = 1 := by
  rcases hds : o.doc_store with e | store
  · simp [hybrid_search, fetch_all, hds] at h
  · simp only [hybrid_search, fetch_all, hds] at h
    rw [HSOut.ok.injEq] at h
    subst h
    have h2 : r ∈ dedup_by_id []
        ((text_search o query).1 ++ (semantic_search o st now query 0.7).1) :=
      (List.perm_insertionSort scoreGe _).mem_iff.mp ((List.take_sublist _ _).subset hr)
    have h3 : r ∈ (text_search o query).1 :=
      dedup_append_mem_left h2 (by rw [hri]; exact hit)
    rcases hann : o.ann_search with e2 | docs
    · rw [text_search, hann] at h3
      simp at h3
    · rw [text_search, hann] at h3
      exact text_match_entries o (pyLower query) docs r h3

/-- The query `villa` occurs in the page content of the first example
document. -/
theorem occ_villa_doc1 :
    occursIn (pyLower "villa") (pyLower "villa de luxe belle villa avec piscine") = true := by
  decide

/-- The normalized key of the example query is itself. -/
theorem normKey_villa : normKey "villa" = "villa" := by decide

/-- Evaluation of the lexical path on the example oracles. -/
theorem exTextEval : text_search exOracles "villa" =
    ([exTextResult], [Effect.annQuery, Effect.docGet "L1"]) := by
  rw [text_search]
  simp [exOracles, text_match, occ_villa_doc1, get_announcement_details,
    exDoc1, exGetDocument, exListing1, exTextResult]

/-- Evaluation of the semantic path on the example oracles. -/
theorem exSemEval : (semantic_search exOracles exState 0 "villa" 0.7).1 =
    [exSem1, exSem2] := by
  have h1 : max (1 - (0 : ℚ) * 0.05) 0.7 = 1 := by norm_num
  have h2 : max (1 - (1 : ℚ) * 0.05) 0.7 = 0.95 := by norm_num
  have h3 : (0.7 : ℚ) ≤ 1 := by norm_num
  have h4 : (0.7 : ℚ) ≤ 0.95 := by norm_num
  have h5 : ¬((1 : ℚ) ≤ 0.95) := by norm_num
  have h6 : (0.95 : ℚ) ≤ 1 := by norm_num
  rw [semantic_search]
  simp [exOracles, exState, TTLCache.get, semantic_search_core, dedup_docs,
    format_positional, get_announcement_details, exDoc1, exDoc2, exGetDocument,
    exListing1, exListing2, sortByScoreDesc, List.insertionSort,
    List.orderedInsert, scoreGe, exSem1, exSem2, h1, h2, h3, h4, h5, h6]
  have h8 : (0 : ℚ) ≤ 5e-2 := by norm_num
  have h9 : ((1 : ℚ) - 5e-2) ⊔ 0.7 = 0.95 := by
    rw [max_eq_left (by norm_num)]
    norm_num
  rw [if_pos h8, h9]

/-- Evaluation of the pagination loop on the example store. -/
theorem exFetchEval : fetch_all exOracles =
    (Except.ok [exListing1, exListing2], [Effect.docList 0]) := by
  rw [fetch_all]
  simp only [exOracles]
  rw [fetch_pages]
  norm_num

/-- Evaluation of `hybrid_search` on the example oracles with limit 1:
the text entry for `L1` wins, `L2` is truncated away, and the counters
keep the raw per-path lengths. -/
theorem exHybridEval : (hybrid_search exOracles exState 0 "villa" 1).1 =
    HSOut.ok ⟨"villa", 1, 1, 2, [exTextResult]⟩ := by
  have h6 : (0.95 : ℚ) ≤ 1 := by norm_num
  have h7 : ¬((1 : ℚ) ≤ 0.95) := by norm_num
  rw [hybrid_search, exFetchEval]
  simp [exTextEval, exSemEval, dedup_by_id, sortByScoreDesc,
    List.insertionSort, List.orderedInsert, scoreGe, exTextResult, exSem1,
    exSem2, exListing1, exListing2, h6, h7]

/-- Witness for `hybrid_search_invariants` on the example oracles with
limit 1. -/
theorem hybrid_search_invariants_witness :
    ((⟨"villa", 1, 1, 2, [exTextResult]⟩ : SearchResponse).results.map
      SearchResult.id).Nodup ∧
    (⟨"villa", 1, 1, 2, [exTextResult]⟩ : SearchResponse).results.length ≤ 1 ∧
    (⟨"villa", 1, 1, 2, [exTextResult]⟩ : SearchResponse).results.Sorted scoreGe :=
  hybrid_search_invariants exOracles exState 0 "villa" 1
    ⟨"villa", 1, 1, 2, [exTextResult]⟩ (by norm_num) exHybridEval

/-- Witness for `hybrid_search_text_priority`: the id `L1` is found by
both paths of the example oracles and the returned entry for it is the
lexical one. -/
theorem hybrid_search_text_priority_witness :
    exTextResult.match_type = "text" ∧ exTextResult.score = 1 :=
  hybrid_search_text_priority exOracles exState 0 "villa" 1
    ⟨"villa", 1, 1, 2, [exTextResult]⟩ "L1" exTextResult
    (by simp [exTextEval, exTextResult])
    (by simp [exSemEval, exSem1])
    exHybridEval
    (by simp)
    (by simp [exTextResult])

/-- C10: in every successful response, `total_results` is the length of
the final truncated list while `text_results` and `semantic_results`
count the raw per-path candidate lists computed before deduplication and
truncation; on the example inputs the two counters sum to more than
`total_results` and count a listing (`L2`) that `results` does not
contain. -/
theorem hybrid_search_counters (o : Oracles) (st : SearchState) (now : ℚ)
    (query : String) (limit : Nat) (store : List Listing)
    (hds : o.doc_store = Except.ok store) :
    (∃ resp, (hybrid_search o st now query limit).1 = HSOut.ok resp ∧
      resp.total_results = resp.results.length ∧
      resp.text_results = (text_search o query).1.length ∧
      resp.semantic_results = (semantic_search o st now query 0.7).1.length) ∧
    (∃ resp2, (hybrid_search exOracles exState 0 "villa" 1).1 = HSOut.ok resp2 ∧
      resp2.total_results < resp2.text_results + resp2.semantic_results ∧
      "L2" ∈ (semantic_search exOracles exState 0 "villa" 0.7).1.map SearchResult.id ∧
      "L2" ∉ resp2.results.map SearchResult.id) := by
  constructor
  · simp only [hybrid_search, fetch_all, hds]
    exact ⟨_, rfl, rfl, rfl, rfl⟩
  · refine ⟨⟨"villa", 1, 1, 2, [exTextResult]⟩, exHybridEval, by norm_num, ?_, ?_⟩
    · simp [exSemEval, exSem2]
    · simp [exTextResult]

/-- Witness for `hybrid_search_counters` on the example oracles. -/
theorem hybrid_search_counters_witness :
    (∃ resp, (hybrid_search exOracles exState 0 "villa" 1).1 = HSOut.ok resp ∧
      resp.total_results = resp.results.length ∧
      resp.text_results = (text_search exOracles "villa").1.length ∧
      resp.semantic_results =
        (semantic_search exOracles exState 0 "villa" 0.7).1.length) ∧
    (∃ resp2, (hybrid_search exOracles exState 0 "villa" 1).1 = HSOut.ok resp2 ∧
      resp2.total_results < resp2.text_results + resp2.semantic_results ∧
      "L2" ∈ (semantic_search exOracles exState 0 "villa" 0.7).1.map SearchResult.id ∧
      "L2" ∉ resp2.results.map SearchResult.id) :=
  hybrid_search_counters exOracles exState 0 "villa" 1 [exListing1, exListing2] rfl

/-- When query expansion and every by-vector retrieval fail, the core
semantic pipeline produces the empty list. -/
theorem semantic_search_core_fail (o : Oracles) (st : SearchState) (now : ℚ)
    (query : String) (min_score : ℚ)
    (hmq : o.multi_query = Except.error ())
    (hav : ∀ v, o.ann_by_vector v = Except.error ()) :
    (semantic_search_core o st now query min_score).1 = [] := by
  simp only [semantic_search_core, hmq, semantic_search_fallback]
  rcases hg : (st.embedding_cache.get query now).1 with _ | emb
  · rcases he : o.embed with u | emb2
    · simp [hg, he]
    · simp [hg, he, hav emb2]
  · by_cases hemp : emb.isEmpty
    · rcases he : o.embed with u | emb2
      · simp [hg, hemp, he]
      · simp [hg, hemp, he, hav emb2]
    · simp [hg, hemp, hav emb]

/-- With a failed expansion, failed by-vector retrievals and no usable
cached result, `semantic_search` returns the empty list (the outer
handler catches the fallback failure). -/
theorem semantic_search_fail_empty (o : Oracles) (st : SearchState) (now : ℚ)
    (query : String) (min_score : ℚ)
    (hmq : o.multi_query = Except.error ())
    (hav : ∀ v, o.ann_by_vector v = Except.error ())
    (hc : (st.result_cache.get query now).1.getD [] = []) :
    (semantic_search o st now query min_score).1 = [] := by
  have hcf := semantic_search_core_fail o
    { st with result_cache := (st.result_cache.get query now).2 }
    now query min_score hmq hav
  simp only [semantic_search]
  rcases hg : (st.result_cache.get query now).1 with _ | rs
  · simp [hg, hcf]
  · have hrs : rs = [] := by simpa [hg] using hc
    subst hrs
    simp [hg, hcf]

/-- C6 counterexample: with a failing document store but a fully healthy
semantic path, `hybrid_search` surfaces the hard error dictionary even
though only one retrieval path is broken, contradicting the claim that
single-path failures are never surfaced as hard errors. -/
theorem hybrid_hard_error_single_path :
    (hybrid_search exOraclesFetchFail exState 0 "villa" 5).1 =
      HSOut.err "Impossible de récupérer les annonces" ∧
    exOraclesFetchFail.multi_query = Except.ok [exDoc1, exDoc2] :=
  ⟨rfl, rfl⟩

/-- C6 amended: `hybrid_search` returns the hard error dictionary exactly
when the initial announcement fetch fails (even if the semantic path is
healthy); once the fetch succeeds it always returns a structured
response, with `text_results = 0` when the lexical ANN call fails and
`semantic_results = 0` when the semantic collaborators fail without a
usable cached result — even when both paths fail at once. -/
theorem hybrid_error_policy (o : Oracles) (st : SearchState) (now : ℚ)
    (query : String) (limit : Nat) :
    (o.doc_store = Except.error () →
      (hybrid_search o st now query limit).1 =
        HSOut.err "Impossible de récupérer les annonces") ∧
    (∀ store, o.doc_store = Except.ok store →
      ∃ resp, (hybrid_search o st now query limit).1 = HSOut.ok resp ∧
        (o.ann_search = Except.error () → resp.text_results = 0) ∧
        (o.multi_query = Except.error () →
          (∀ v, o.ann_by_vector v = Except.error ()) →
          (st.result_cache.get query now).1.getD [] = [] →
          resp.semantic_results = 0)) := by
  constructor
  · intro h
    simp [hybrid_search, fetch_all, h]
  · intro store hds
    simp only [hybrid_search, fetch_all, hds]
    refine ⟨_, rfl, ?_, ?_⟩
    · intro hann
      simp [text_search, hann]
    · intro hmq hav hc
      simp [semantic_search_fail_empty o st now query 0.7 hmq hav hc]

/-- Witness for `hybrid_error_policy`: the document-store failure case on
the example oracles. -/
theorem hybrid_error_policy_witness :
    (hybrid_search exOraclesFetchFail exState 0 "villa" 5).1 =
      HSOut.err "Impossible de récupérer les annonces" :=
  (hybrid_error_policy exOraclesFetchFail exState 0 "villa" 5).1 rfl

/-- A nonempty unexpired result-cache entry short-circuits
`semantic_search`: the cached list is returned unchanged and no
retrieval effect is issued. -/
theorem semantic_search_hit (o : Oracles) (st : SearchState) (now : ℚ)
    (query : String) (min_score : ℚ) (rs : List SearchResult)
    (hhit : (st.result_cache.get query now).1 = some rs)
    (h0 : rs.isEmpty = false) :
    semantic_search o st now query min_score =
      (rs, { st with result_cache := (st.result_cache.get query now).2 }, []) := by
  simp [semantic_search, hhit, h0]

/-- C4 counterexample: the query `villa` holds a nonempty unexpired entry
in the result cache (written at time 0, looked up at time 1, TTL 2
hours), yet the repeated `hybrid_search` call still performs retrieval
work: a document-store page fetch and the ANN query of the lexical
path. -/
theorem result_cache_hit_still_retrieves :
    (exStateCached.result_cache.get "villa" 1).1 = some [exCachedResult] ∧
    Effect.docList 0 ∈ (hybrid_search exOracles exStateCached 1 "villa" 5).2.2 ∧
    Effect.annQuery ∈ (hybrid_search exOracles exStateCached 1 "villa" 5).2.2 := by
  have hhit : (exStateCached.result_cache.get "villa" 1).1 = some [exCachedResult] := by
    simp only [TTLCache.get, exStateCached, normKey_villa]
    norm_num
  have hs := semantic_search_hit exOracles exStateCached 1 "villa" 0.7
    [exCachedResult] hhit rfl
  refine ⟨hhit, ?_, ?_⟩ <;>
  · rw [hybrid_search, exFetchEval]
    simp [exTextEval, hs]

/-- C4 amended: with a nonempty unexpired result-cache entry,
`semantic_search` returns exactly the cached list and performs no
retrieval work at all (the result cache is read before any semantic
retrieval begins), but `hybrid_search` still performs the document-store
pagination and the lexical ANN text search on every repeated query: its
effect trace on a cache hit is exactly the fetch effects followed by the
text-search effects. -/
theorem result_cache_hit_skips_semantic_work (o : Oracles) (st : SearchState)
    (now : ℚ) (query : String) (min_score : ℚ) (rs : List SearchResult)
    (hhit : (st.result_cache.get query now).1 = some rs)
    (hne : rs.isEmpty = false) :
    semantic_search o st now query min_score =
      (rs, { st with result_cache := (st.result_cache.get query now).2 }, []) ∧
    (∀ limit store, o.doc_store = Except.ok store →
      (hybrid_search o st now query limit).2.2 =
        (fetch_all o).2 ++ (text_search o query).2) := by
  refine ⟨semantic_search_hit o st now query min_score rs hhit hne, ?_⟩
  intro limit store hds
  have hs7 := semantic_search_hit o st now query 0.7 rs hhit hne
  simp only [hybrid_search, fetch_all, hds]
  simp [hs7]

/-- Witness for `result_cache_hit_skips_semantic_work` on the cached
example state. -/
theorem result_cache_hit_skips_semantic_work_witness :
    semantic_search exOracles exStateCached 1 "villa" 0.7 =
      ([exCachedResult],
        { exStateCached with
            result_cache := (exStateCached.result_cache.get "villa" 1).2 }, []) :=
  (result_cache_hit_skips_semantic_work exOracles exStateCached 1 "villa" 0.7
    [exCachedResult]
    (by simp only [TTLCache.get, exStateCached, normKey_villa]; norm_num)
    rfl).1

/-- C7: when the multi-query expansion raises and the result cache holds
no usable entry, `semantic_search` returns exactly the output of the
single-query fallback path (whenever the fallback collaborators
succeed), and `hybrid_search` still returns a structured response rather
than an exception whenever the announcement fetch succeeds. -/
theorem semantic_expansion_fallback (o : Oracles) (st : SearchState) (now : ℚ)
    (query : String) (min_score : ℚ) (rs : List SearchResult)
    (stF : SearchState) (eff : List Effect) (limit : Nat)
    (hmq : o.multi_query = Except.error ())
    (hc : (st.result_cache.get query now).1.getD [] = [])
    (hfb : semantic_search_fallback o
        { st with result_cache := (st.result_cache.get query now).2 }
        now query min_score = Except.ok (rs, stF, eff)) :
    semantic_search o st now query min_score =
      (rs, stF, Effect.llmMultiQuery :: eff) ∧
    (∀ store, o.doc_store = Except.ok store →
      ∃ resp, (hybrid_search o st now query limit).1 = HSOut.ok resp) := by
  constructor
  · simp only [semantic_search]
    rcases hg : (st.result_cache.get query now).1 with _ | rs0
    · simp [hg, semantic_search_core, hmq, hfb]
    · have hrs : rs0 = [] := by simpa [hg] using hc
      subst hrs
      simp [hg, semantic_search_core, hmq, hfb]
  · intro store hds
    simp only [hybrid_search, fetch_all, hds]
    exact ⟨_, rfl⟩

/-- Evaluation of the single-query fallback on the expansion-failure
oracles: the embedding is computed and cached, one by-vector ANN call
runs, and the formatted entry for `L1` is returned. -/
theorem exFallbackEval :
    semantic_search_fallback exOraclesExpansionFail
      { exState with result_cache := (exState.result_cache.get "villa" 0).2 }
      0 "villa" 0.8 =
      Except.ok ([exFallbackResult],
        ⟨⟨[("villa", ⟨[1, 0, 0], 0⟩)], 24⟩, ⟨[], 2⟩, false⟩,
        [Effect.embedCall, Effect.annQuery, Effect.docGet "L1"]) := by
  have h1 : max (1 - (0 : ℚ) * 0.1) 0.8 = 1 := by norm_num
  have h3 : (0.8 : ℚ) ≤ 1 := by norm_num
  simp [semantic_search_fallback, exState, TTLCache.get, TTLCache.set,
    exOraclesExpansionFail, format_positional, get_announcement_details,
    exDoc1, exGetDocument, exListing1, sortByScoreDesc, List.insertionSort,
    List.orderedInsert, normKey_villa, exFallbackResult, h1, h3]

/-- Witness for `semantic_expansion_fallback` on the expansion-failure
oracles. -/
theorem semantic_expansion_fallback_witness :
    semantic_search exOraclesExpansionFail exState 0 "villa" 0.8 =
      ([exFallbackResult],
        ⟨⟨[("villa", ⟨[1, 0, 0], 0⟩)], 24⟩, ⟨[], 2⟩, false⟩,
        [Effect.llmMultiQuery, Effect.embedCall, Effect.annQuery,
          Effect.docGet "L1"]) :=
  (semantic_expansion_fallback exOraclesExpansionFail exState 0 "villa" 0.8
    [exFallbackResult] ⟨⟨[("villa", ⟨[1, 0, 0], 0⟩)], 24⟩, ⟨[], 2⟩, false⟩
    [Effect.embedCall, Effect.annQuery, Effect.docGet "L1"] 5
    rfl rfl exFallbackEval).1
